import Mathlib

/-!
Shallow embedding of the figma-to-code repository (a small React single-page
app that converts a Figma JSON export or a UI screenshot into JSX via an
LLM completion endpoint).

Main source file: an App component holding five pieces of state
(figmaJson, imageFile, imagePreview, generatedCode, loading) and the
handlers handlePaste, handleFileChange, the clear button, and the
orchestrator convertFigmaToJSX.  A second, earlier variant of the same
component (src/App.tsx) is embedded in namespace V0.

JavaScript strings are modelled as Lean String, with the pure character
level helpers below working on List Char.  Object URLs created by
URL.createObjectURL are modelled as consecutive natural numbers handed
out by a counter carried in the state, together with the list of URLs
that URL.revokeObjectURL has been called on (the source never calls it).
-/

/-- Whitespace test used for the regex class \s and for String.trim;
we model the ASCII whitespace characters, which cover every string the
app and our theorems construct. -/
def isWsChar (c : Char) : Bool :=
  c = ' ' || c = '\t' || c = '\n' || c = '\r' || c = '\x0b' || c = '\x0c'

/-- Model of JavaScript String.prototype.trim: drop whitespace from both
ends. -/
def jsTrim (s : List Char) : List Char :=
  ((s.dropWhile isWsChar).reverse.dropWhile isWsChar).reverse

/-- String form of jsTrim. -/
def jsTrimStr (s : String) : String :=
  String.mk (jsTrim s.toList)

/-- Does the list start with the given pattern? -/
def startsWithL : List Char → List Char → Bool
  | _, [] => true
  | [], _ :: _ => false
  | c :: cs, d :: ds => c = d && startsWithL cs ds

/-- Does the list contain the pattern as a contiguous sublist?  This is
the model of JavaScript indexOf(pat) !== -1. -/
def containsSub : List Char → List Char → Bool
  | [], pat => startsWithL [] pat
  | c :: cs, pat => startsWithL (c :: cs) pat || containsSub cs pat

/-- The triple-backtick fence delimiter of the code-block regex. -/
def fenceChars : List Char := ['`', '`', '`']

/-- Split a list at the first occurrence of the triple-backtick fence:
returns (text before the fence, text after the fence), or none when no
fence occurs. -/
def splitAtFence : List Char → Option (List Char × List Char)
  | [] => none
  | c :: cs =>
    if startsWithL (c :: cs) fenceChars then
      some ([], cs.drop 2)
    else
      match splitAtFence cs with
      | some (pre, rest) => some (c :: pre, rest)
      | none => none

/-- Skip an optional language tag right after the opening fence, as in
the regex group (?:jsx|tsx)? of the source. -/
def dropLangTag (s : List Char) : List Char :=
  if startsWithL s ['j', 's', 'x'] || startsWithL s ['t', 's', 'x'] then
    s.drop 3
  else s

/-- Model of the response-code extraction expression of
convertFigmaToJSX:

  const codeMatch = content.match of the pattern
    triple-backtick, optional jsx or tsx tag, \s*, lazy capture,
    triple-backtick;
  const cleanedCode = codeMatch ? codeMatch[1].trim() : content;

Because the pattern begins with a literal fence, the match site is the
first fence occurrence; the language tag and the \s* run contain no
backtick, so the lazy capture group ends at the next fence occurrence,
and the whole regex matches iff such a closing fence exists.  When the
regex fails to match, the raw content is returned unchanged. -/
def extractCode (content : List Char) : List Char :=
  match splitAtFence content with
  | none => content
  | some (_, afterOpen) =>
    let body := (dropLangTag afterOpen).dropWhile isWsChar
    match splitAtFence body with
    | none => content
    | some (inner, _) => jsTrim inner

/-- String form of extractCode. -/
def extractCodeStr (content : String) : String :=
  String.mk (extractCode content.toList)

/-- The base64 alphabet. -/
def b64Alphabet : List Char :=
  "ABCDEFGHIJKLMNOPQRSTUVWXYZabcdefghijklmnopqrstuvwxyz0123456789+/".toList

/-- Character of a 6-bit value in the base64 alphabet. -/
def b64Char (n : Nat) : Char := b64Alphabet.getD n 'A'

/-- Standard base64 encoding of a byte sequence, with padding. -/
def base64Encode : List Nat → List Char
  | [] => []
  | [a] => [b64Char (a / 4), b64Char (a % 4 * 16), '=', '=']
  | [a, b] => [b64Char (a / 4), b64Char (a % 4 * 16 + b / 16), b64Char (b % 16 * 4), '=']
  | a :: b :: c :: rest =>
    b64Char (a / 4) :: b64Char (a % 4 * 16 + b / 16) ::
      b64Char (b % 16 * 4 + c / 64) :: b64Char (c % 64) :: base64Encode rest

/-- An image file: a MIME type and the binary payload (byte values). -/
structure JsFile where
  mime : String
  bytes : List Nat
deriving DecidableEq

/-- Model of the value the fileToBase64 helper resolves with: the
FileReader readAsDataURL result, a data URL embedding the MIME type and
the base64 payload. -/
def fileToBase64 (f : JsFile) : String :=
  "data:" ++ f.mime ++ ";base64," ++ String.mk (base64Encode f.bytes)

/-- One typed part of a user message content array: either a text part
or an image_url part carrying a url and a detail level. -/
inductive ContentPart where
  | text (t : String)
  | imageUrl (url : String) (detail : String)
deriving DecidableEq

/-- Message content: either a plain string or an array of typed parts. -/
inductive MsgContent where
  | str (s : String)
  | parts (ps : List ContentPart)
deriving DecidableEq

/-- A role-tagged chat message. -/
structure ChatMessage where
  role : String
  content : MsgContent
deriving DecidableEq

/-- The JSON body of a POST to the completions endpoint: model,
messages, max_tokens and temperature. -/
structure Request where
  model : String
  messages : List ChatMessage
  maxTokens : Nat
  temperature : ℚ
deriving DecidableEq

/-- The message object of one choice of a completion response; its
content field may be absent. -/
structure MsgObj where
  content : Option String
deriving DecidableEq

/-- One element of the choices array; its message field may be absent. -/
structure ApiChoice where
  message : Option MsgObj
deriving DecidableEq

/-- A parsed completion-endpoint JSON body: the choices array may be
absent, and an error object with a message may be present. -/
structure ApiBody where
  choices : Option (List ApiChoice)
  errMsg : Option String
deriving DecidableEq

/-- Message of the TypeError the JS runtime throws when choices is
present but the indexed element or its message field is undefined (the
exact host wording is irrelevant to the claims and not modelled). -/
def typeErrorMsg : String := "Cannot read properties of undefined"

/-- Model of the truthiness test

  data.choices && data.choices[0].message.content

as it evaluates in JavaScript: an absent choices field is falsy (ok
none); an empty choices array is truthy but indexing it gives undefined
and reading message throws (error); an absent message field likewise
throws; an absent or empty content string is falsy (ok none); a
non-empty content string is truthy (ok some). -/
def firstChoiceContent (b : ApiBody) : Except String (Option String) :=
  match b.choices with
  | none => .ok none
  | some [] => .error typeErrorMsg
  | some (c :: _) =>
    match c.message with
    | none => .error typeErrorMsg
    | some m =>
      match m.content with
      | none => .ok none
      | some s => .ok (if s = "" then none else some s)

/-- Fallback logic of the thrown service error on a non-2xx response:

  new Error(errorData.error?.message || "API request failed")

an absent or empty error.message field falls back to the fixed string. -/
def serviceErrMsg (b : ApiBody) : String :=
  match b.errMsg with
  | some m => if m = "" then "API request failed" else m
  | none => "API request failed"

/-- Outcome of the single fetch of one conversion run: either the
server responded (ok is the 2xx flag, json the result of parsing the
body, error when response.json rejects with that message), or the fetch
itself rejected (network failure) with an error message.  Thrown values
are modelled by the message the catch blocks read off them. -/
inductive FetchOutcome where
  | response (ok : Bool) (json : Except String ApiBody)
  | networkError (msg : String)

/-- Environment of one convertFigmaToJSX run: whether fileToBase64
rejects (some msg) instead of resolving with the data URL, and the
outcome of the fetch the run would issue. -/
structure ConvEnv where
  encodeError : Option String
  fetchOutcome : FetchOutcome

/-- The component state of App: the five useState cells, plus a model
of the browser object-URL registry (a counter handing out fresh URLs
for URL.createObjectURL and the list of URLs passed to
URL.revokeObjectURL). -/
structure AppState where
  figmaJson : String
  imageFile : Option JsFile
  imagePreview : Option Nat
  generatedCode : String
  loading : Bool
  urlCounter : Nat
  revokedUrls : List Nat
deriving DecidableEq

/-- The initial component state. -/
def initialState : AppState :=
  { figmaJson := "", imageFile := none, imagePreview := none,
    generatedCode := "", loading := false, urlCounter := 0, revokedUrls := [] }

/-- The system prompt of the image request. -/
def imageSystemPrompt : String :=
  "You are an expert UI developer who converts UI designs into React components with Tailwind CSS. You analyze UI screenshots and generate pixel-perfect code."

/-- The instruction text part of the image request. -/
def imageUserInstruction : String :=
  "Convert this UI design into React JSX code with Tailwind CSS. Include all text content, styling, and layout exactly as shown. Make it responsive and use semantic HTML."

/-- The request body built in the image branch of convertFigmaToJSX:
model gpt-4o, a system message, a user message of one text part and one
image_url part at detail high, max_tokens 4000, temperature 0. -/
def buildImageRequest (dataUrl : String) : Request :=
  { model := "gpt-4o",
    messages :=
      [ { role := "system", content := .str imageSystemPrompt },
        { role := "user",
          content := .parts
            [ .text imageUserInstruction,
              .imageUrl dataUrl "high" ] } ],
    maxTokens := 4000,
    temperature := 0 }

/-- The single user message of the Figma-JSON branch request. -/
def jsonPrompt (figmaJson : String) : String :=
  "Create a React component with Tailwind CSS based on this Figma JSON. Return ONLY the JSX code without any explanation.\n\nFigma JSON:\n" ++ figmaJson

/-- The request body built in the Figma-JSON branch of
convertFigmaToJSX: model gpt-4, one user message, max_tokens 4096,
temperature 0.1. -/
def buildJsonRequest (figmaJson : String) : Request :=
  { model := "gpt-4",
    messages := [ { role := "user", content := .str (jsonPrompt figmaJson) } ],
    maxTokens := 4096,
    temperature := 1 / 10 }

/-- The body of the try block of the image branch after fileToBase64
resolved: fetch outcome to generatedCode value.  On a non-2xx response
the parsed error body (or the rejection of response.json) is rethrown;
on a 2xx response the choices check runs and, when content is present,
the code-block extraction is applied.  Every thrown value lands in the
catch block, which renders it as the string Error: followed by the
message. -/
def imageBranchResult (outcome : FetchOutcome) : String :=
  match outcome with
  | .networkError m => "Error: " ++ m
  | .response ok json =>
    if ok then
      match json with
      | .error pm => "Error: " ++ pm
      | .ok body =>
        match firstChoiceContent body with
        | .error tm => "Error: " ++ tm
        | .ok none => "Error: Could not generate code. Please check your input."
        | .ok (some content) => extractCodeStr content
    else
      match json with
      | .error pm => "Error: " ++ pm
      | .ok body => "Error: " ++ serviceErrMsg body

/-- The body of the try block of the Figma-JSON branch: no response.ok
check is made; the parsed body goes straight to the choices check and,
when content is present, it is stored raw with no extraction. -/
def jsonBranchResult (outcome : FetchOutcome) : String :=
  match outcome with
  | .networkError m => "Error: " ++ m
  | .response _ json =>
    match json with
    | .error pm => "Error: " ++ pm
    | .ok body =>
      match firstChoiceContent body with
      | .error tm => "Error: " ++ tm
      | .ok none => "Error: Could not generate code. Please check your input."
      | .ok (some content) => content

/-- Model of the orchestrator convertFigmaToJSX of the main source
file.  Returns the state after the run settles together with the list
of network requests the run issued.  Control flow mirrors the source:
setLoading(true) and setGeneratedCode of the empty string up front; the
image branch runs when imageFile is set, catches the fileToBase64
rejection, and ends with setLoading(false); the Figma-JSON branch runs
when figmaJson is a non-empty string and does not touch loading again;
the final branch stores the no-input message and clears loading without
fetching. -/
def convertFigmaToJSX (env : ConvEnv) (s : AppState) : AppState × List Request :=
  let s := { s with loading := true, generatedCode := "" }
  match s.imageFile with
  | some f =>
    match env.encodeError with
    | some m =>
      ({ s with generatedCode := "Error: " ++ m, loading := false }, [])
    | none =>
      ({ s with generatedCode := imageBranchResult env.fetchOutcome,
                loading := false },
       [buildImageRequest (fileToBase64 f)])
  | none =>
    if s.figmaJson ≠ "" then
      ({ s with generatedCode := jsonBranchResult env.fetchOutcome },
       [buildJsonRequest s.figmaJson])
    else
      ({ s with generatedCode := "Please provide either Figma JSON or upload a screenshot image.",
                loading := false }, [])

/-- Model of handleFileChange: when the file list is non-empty, store
its first file as imageFile, create a fresh object URL as the preview,
and clear the Figma-JSON text.  No previously held object URL is
revoked. -/
def handleFileChange (files : List JsFile) (s : AppState) : AppState :=
  match files with
  | [] => s
  | f :: _ =>
    { s with imageFile := some f,
             imagePreview := some s.urlCounter,
             urlCounter := s.urlCounter + 1,
             figmaJson := "" }

/-- Model of the textarea onChange handler: it only stores the new
text in figmaJson. -/
def setStructuredText (t : String) (s : AppState) : AppState :=
  { s with figmaJson := t }

/-- Model of the onClick handler of the preview clear button: it nulls
imagePreview and imageFile and revokes nothing. -/
def clearImage (s : AppState) : AppState :=
  { s with imagePreview := none, imageFile := none }

/-- One clipboard entry: its MIME type string and the result of
getAsFile (none when the entry yields no file). -/
structure ClipItem where
  itemType : String
  asFile : Option JsFile
deriving DecidableEq

/-- The type test of the paste loop: item.type.indexOf of image is not
minus one, i.e. the type string contains image. -/
def isImageItem (item : ClipItem) : Bool :=
  containsSub item.itemType.toList "image".toList

/-- The for-of loop of handlePaste: scan the entries in order; at the
first entry whose type contains image, call preventDefault (second
component true), then act on getAsFile when it yields a file, and break
either way. -/
def pasteLoop (items : List ClipItem) (s : AppState) : AppState × Bool :=
  match items with
  | [] => (s, false)
  | item :: rest =>
    if isImageItem item then
      match item.asFile with
      | some f =>
        ({ s with imageFile := some f,
                  imagePreview := some s.urlCounter,
                  urlCounter := s.urlCounter + 1,
                  figmaJson := "" }, true)
      | none => (s, true)
    else pasteLoop rest s

/-- Model of handlePaste: when clipboardData or its items are absent,
return at once without preventing the default paste; otherwise run the
loop over the entries.  The boolean is true iff preventDefault was
called on the event. -/
def handlePaste (items : Option (List ClipItem)) (s : AppState) : AppState × Bool :=
  match items with
  | none => (s, false)
  | some list => pasteLoop list s

/-- The modality a call to convertFigmaToJSX would act on, read off the
branch order of the source: an image file wins over the Figma-JSON
text, which is active only when non-empty. -/
inductive InputModality where
  | image (f : JsFile)
  | structuredText (t : String)
  | none
deriving DecidableEq

/-- The active modality of a state, following the branch order of
convertFigmaToJSX. -/
def activeModality (s : AppState) : InputModality :=
  match s.imageFile with
  | some f => .image f
  | Option.none =>
    if s.figmaJson ≠ "" then .structuredText s.figmaJson else .none

namespace V0

/-- Component state of the earlier variant (src/App.tsx), which keeps
no image preview. -/
structure AppState where
  figmaJson : String
  imageFile : Option JsFile
  generatedCode : String
  loading : Bool
deriving DecidableEq

/-- Initial state of the earlier variant. -/
def initialState : AppState :=
  { figmaJson := "", imageFile := none, generatedCode := "", loading := false }

/-- The trimmed template-literal prompt of the image branch of the
earlier variant, embedding the data URL as text. -/
def imagePrompt (base64Image : String) : String :=
  jsTrimStr ("\nYou are an expert converter that transforms an image screenshot of a Figma component into a fully functional React JSX component styled with Tailwind CSS.\nAnalyze the design from the image below (provided as a base64 encoded string) and output only the React JSX code. Do not include any explanation.\n\nImage (base64):\n" ++ base64Image ++ "\n        ")

/-- The trimmed template-literal prompt of the Figma-JSON branch of the
earlier variant. -/
def jsonPromptV0 (figmaJson : String) : String :=
  jsTrimStr ("\nYou are an expert converter that transforms Figma design JSON into a fully functional React JSX component styled with Tailwind CSS.\nGenerate only the code based on the Figma JSON below. Do not include any additional explanation.\n\nFigma JSON:\n" ++ figmaJson ++ "\n      ")

/-- The single request the earlier variant sends for either modality:
model gpt-4, one user message holding the whole prompt, max_tokens
1500, temperature 0. -/
def buildRequest (prompt : String) : Request :=
  { model := "gpt-4",
    messages := [ { role := "user", content := .str prompt } ],
    maxTokens := 1500,
    temperature := 0 }

/-- Model of convertFigmaToJSX of the earlier variant (src/App.tsx):
build the prompt from the active modality (returning early with the
no-input message, and no fetch, when both are empty; likewise on a
fileToBase64 rejection), then issue one fetch whose response is handled
without a response.ok check, exactly as in the Figma-JSON branch of the
main variant, and clear loading at the end. -/
def convertFigmaToJSX (env : ConvEnv) (s : AppState) : AppState × List Request :=
  let s := { s with loading := true, generatedCode := "" }
  match s.imageFile with
  | some f =>
    match env.encodeError with
    | some m =>
      ({ s with generatedCode := "Error processing image: " ++ m, loading := false }, [])
    | none =>
      ({ s with generatedCode := jsonBranchResult env.fetchOutcome, loading := false },
       [buildRequest (imagePrompt (fileToBase64 f))])
  | none =>
    if s.figmaJson ≠ "" then
      ({ s with generatedCode := jsonBranchResult env.fetchOutcome, loading := false },
       [buildRequest (jsonPromptV0 s.figmaJson)])
    else
      ({ s with generatedCode := "Please provide either Figma JSON or upload a screenshot image.",
                loading := false }, [])

end V0

/-- A response body whose first choice carries the given content. -/
def okBody (content : String) : ApiBody :=
  { choices := some [{ message := some { content := some content } }],
    errMsg := none }

/-- Environment of a run in which encoding succeeds and the fetch
returns a 2xx response carrying the given content. -/
def okEnv (content : String) : ConvEnv :=
  { encodeError := none,
    fetchOutcome := .response true (.ok (okBody content)) }

/-- A sample image file used by concrete counterexamples and witnesses. -/
def pngFile : JsFile := { mime := "image/png", bytes := [137, 80, 78, 71] }

/-- A second sample image file. -/
def jpgFile : JsFile := { mime := "image/jpeg", bytes := [255, 216] }

/-- The image urls of the image_url parts of a request, in order. -/
def imagePartUrls (r : Request) : List String :=
  (r.messages.map fun msg =>
    match msg.content with
    | .str _ => []
    | .parts ps =>
      ps.filterMap fun p =>
        match p with
        | .text _ => none
        | .imageUrl url _ => some url).flatten

/-- Splitting at the fence finds the fence right after a fence-free
prefix. -/
theorem splitAtFence_append (pre rest : List Char) (h : ∀ c ∈ pre, c ≠ '`') :
    splitAtFence (pre ++ '`' :: '`' :: '`' :: rest) = some (pre, rest) := by
  induction pre with
  | nil => simp [splitAtFence, startsWithL, fenceChars]
  | cons c cs ih =>
    have hc : c ≠ '`' := h c (by simp)
    have ih2 := ih fun x hx => h x (List.mem_cons_of_mem c hx)
    simp [splitAtFence, startsWithL, fenceChars, hc, ih2]

/-- A list with no fence occurrence does not split at a fence. -/
theorem splitAtFence_eq_none (s : List Char) (h : containsSub s fenceChars = false) :
    splitAtFence s = none := by
  induction s with
  | nil => rfl
  | cons c cs ih =>
    simp only [containsSub, Bool.or_eq_false_iff] at h
    simp [splitAtFence, h.1, ih h.2]

/-- Dropping leading whitespace stops at a backtick. -/
theorem dropWhile_append_btick (l t : List Char) :
    (l ++ '`' :: t).dropWhile isWsChar = l.dropWhile isWsChar ++ '`' :: t := by
  induction l with
  | nil => simp [List.dropWhile, isWsChar]
  | cons c cs ih => by_cases hc : isWsChar c <;> simp [List.dropWhile, hc, ih]

/-- Dropping leading whitespace twice is dropping it once. -/
theorem dropWhile_isWs_idem (l : List Char) :
    (l.dropWhile isWsChar).dropWhile isWsChar = l.dropWhile isWsChar := by
  induction l with
  | nil => rfl
  | cons c cs ih => by_cases hc : isWsChar c <;> simp [List.dropWhile, hc, ih]

/-- Trimming is insensitive to whitespace already dropped at the front. -/
theorem jsTrim_dropWhile (l : List Char) :
    jsTrim (l.dropWhile isWsChar) = jsTrim l := by
  simp [jsTrim, dropWhile_isWs_idem]

/-- Claim C1, counterexample: after selectFile (handleFileChange) with a
file and then setStructuredText of x, the active modality is still the
image, not StructuredText x, because the textarea onChange handler only
writes figmaJson and does not clear imageFile. -/
theorem c1_text_after_image_counterexample :
    activeModality (setStructuredText "x" (handleFileChange [pngFile] initialState))
      ≠ InputModality.structuredText "x" ∧
    activeModality (setStructuredText "x" (handleFileChange [pngFile] initialState))
      = InputModality.image pngFile := by
  constructor
  · decide
  · rfl

/-- Claim C1, amended: mutual exclusivity holds in one direction only.
Setting an image clears any structured text, but setting structured
text afterwards does not clear the active image: after
handleFileChange with a file and then setStructuredText of any text,
both cells are populated and the active modality (the branch
convertFigmaToJSX takes) is still the image. -/
theorem c1_image_wins_over_later_text (s : AppState) (f : JsFile) (t : String) :
    (handleFileChange [f] s).figmaJson = "" ∧
    activeModality (handleFileChange [f] s) = InputModality.image f ∧
    (setStructuredText t (handleFileChange [f] s)).figmaJson = t ∧
    activeModality (setStructuredText t (handleFileChange [f] s)) = InputModality.image f := by
  simp [handleFileChange, setStructuredText, activeModality]

/-- Claim C2: when both input modalities are empty (no image file and
empty Figma-JSON text), convertFigmaToJSX issues no network request,
stores the user-facing no-input message, and clears the loading flag;
this holds for both variants of the component. -/
theorem c2_empty_input_no_request (env : ConvEnv) (s : AppState) (t : V0.AppState)
    (hsi : s.imageFile = none) (hsj : s.figmaJson = "")
    (hti : t.imageFile = none) (htj : t.figmaJson = "") :
    (convertFigmaToJSX env s).2 = [] ∧
    (convertFigmaToJSX env s).1.generatedCode =
      "Please provide either Figma JSON or upload a screenshot image." ∧
    (convertFigmaToJSX env s).1.loading = false ∧
    (V0.convertFigmaToJSX env t).2 = [] ∧
    (V0.convertFigmaToJSX env t).1.generatedCode =
      "Please provide either Figma JSON or upload a screenshot image." ∧
    (V0.convertFigmaToJSX env t).1.loading = false := by
  simp [convertFigmaToJSX, V0.convertFigmaToJSX, hsi, hsj, hti, htj]

/-- Claim C2, witness at the initial states with a network-failing
environment. -/
theorem c2_empty_input_no_request_witness :
    (convertFigmaToJSX { encodeError := none, fetchOutcome := .networkError "refused" } initialState).2 = [] ∧
    (convertFigmaToJSX { encodeError := none, fetchOutcome := .networkError "refused" } initialState).1.generatedCode =
      "Please provide either Figma JSON or upload a screenshot image." ∧
    (convertFigmaToJSX { encodeError := none, fetchOutcome := .networkError "refused" } initialState).1.loading = false ∧
    (V0.convertFigmaToJSX { encodeError := none, fetchOutcome := .networkError "refused" } V0.initialState).2 = [] ∧
    (V0.convertFigmaToJSX { encodeError := none, fetchOutcome := .networkError "refused" } V0.initialState).1.generatedCode =
      "Please provide either Figma JSON or upload a screenshot image." ∧
    (V0.convertFigmaToJSX { encodeError := none, fetchOutcome := .networkError "refused" } V0.initialState).1.loading = false :=
  c2_empty_input_no_request _ _ _ rfl rfl rfl rfl

/-- Claim C3: a successful conversion in the Figma-JSON modality
reaches its terminal state (generatedCode holds the result) with the
loading flag still set, because the Figma-JSON branch of
convertFigmaToJSX never calls setLoading(false); the image branch, by
contrast, does clear it. -/
theorem c3_json_branch_keeps_loading :
    (convertFigmaToJSX (okEnv "const a = 1") { initialState with figmaJson := "design" }).1.generatedCode
      = "const a = 1" ∧
    (convertFigmaToJSX (okEnv "const a = 1") { initialState with figmaJson := "design" }).1.loading
      = true ∧
    (convertFigmaToJSX (okEnv "const a = 1") { initialState with imageFile := some pngFile }).1.loading
      = false := by
  refine ⟨rfl, rfl, rfl⟩

/-- Membership in the whitespace-dropped list implies membership in the
original list. -/
theorem mem_of_mem_dropWhile_isWs (c : Char) (l : List Char)
    (h : c ∈ l.dropWhile isWsChar) : c ∈ l := by
  induction l with
  | nil => simp at h
  | cons d ds ih =>
    by_cases hd : isWsChar d
    · rw [List.dropWhile_cons_of_pos hd] at h
      exact List.mem_cons_of_mem d (ih h)
    · rwa [List.dropWhile_cons_of_neg hd] at h

/-- Claim C4, counterexample: on an input with no fence the extractor
returns the text unchanged, not trimmed, as the claim states. -/
theorem c4_fallback_is_untrimmed :
    extractCode "  x ".toList = "  x ".toList ∧
    jsTrim "  x ".toList = "x".toList ∧
    extractCode "  x ".toList ≠ jsTrim "  x ".toList := by
  refine ⟨rfl, rfl, by decide⟩

/-- Claim C4, amended: the extractor is total and follows the parsing
rule of the source with an untrimmed fallback.  When the input holds no
triple-backtick fence the full input is returned unchanged (not
trimmed); when a first fenced block with a language tag is present
(first fence after fence-free prose, then the interior up to the next
fence), the trimmed interior of that block is returned. -/
theorem c4_extractor_rule (s pre inner post : List Char)
    (hs : containsSub s fenceChars = false)
    (hpre : ∀ c ∈ pre, c ≠ '`')
    (hinner : ∀ c ∈ inner, c ≠ '`') :
    extractCode s = s ∧
    extractCode (pre ++ '`' :: '`' :: '`' :: 'j' :: 's' :: 'x' ::
      (inner ++ '`' :: '`' :: '`' :: post)) = jsTrim inner := by
  constructor
  · rw [extractCode, splitAtFence_eq_none s hs]
  · have h1 : splitAtFence (pre ++ '`' :: '`' :: '`' ::
        ('j' :: 's' :: 'x' :: (inner ++ '`' :: '`' :: '`' :: post)))
        = some (pre, 'j' :: 's' :: 'x' :: (inner ++ '`' :: '`' :: '`' :: post)) :=
      splitAtFence_append _ _ hpre
    have h2 : dropLangTag ('j' :: 's' :: 'x' :: (inner ++ '`' :: '`' :: '`' :: post))
        = inner ++ '`' :: '`' :: '`' :: post := by
      simp [dropLangTag, startsWithL]
    have h3 : (inner ++ '`' :: '`' :: '`' :: post).dropWhile isWsChar
        = inner.dropWhile isWsChar ++ '`' :: '`' :: '`' :: post :=
      dropWhile_append_btick inner ('`' :: '`' :: post)
    have h4 : ∀ c ∈ inner.dropWhile isWsChar, c ≠ '`' :=
      fun c hc => hinner c (mem_of_mem_dropWhile_isWs c inner hc)
    have h5 : splitAtFence (inner.dropWhile isWsChar ++ '`' :: '`' :: '`' :: post)
        = some (inner.dropWhile isWsChar, post) :=
      splitAtFence_append _ _ h4
    rw [extractCode, h1]
    simp only [h2, h3, h5]
    exact jsTrim_dropWhile inner

/-- Claim C4, witness: the amended rule at a no-fence input and at a
prose-wrapped jsx block. -/
theorem c4_extractor_rule_witness :
    extractCode "plain text, no fence".toList = "plain text, no fence".toList ∧
    extractCode ("Sure: ".toList ++ '`' :: '`' :: '`' :: 'j' :: 's' :: 'x' ::
      ("\nlet a = 1\n".toList ++ '`' :: '`' :: '`' :: " bye".toList))
      = jsTrim "\nlet a = 1\n".toList :=
  c4_extractor_rule _ _ _ _ (by decide) (by decide) (by decide)

/-- Claim C5, counterexample: a successful Figma-JSON conversion whose
completion text carries a fenced block stores the raw completion text,
fences and all; the extractor would have stripped them. -/
theorem c5_json_branch_skips_extractor :
    (convertFigmaToJSX (okEnv "```jsx\nX\n```") { initialState with figmaJson := "d" }).1.generatedCode
      = "```jsx\nX\n```" ∧
    extractCodeStr "```jsx\nX\n```" = "X" ∧
    (convertFigmaToJSX (okEnv "```jsx\nX\n```") { initialState with figmaJson := "d" }).1.generatedCode
      ≠ extractCodeStr "```jsx\nX\n```" := by
  refine ⟨rfl, rfl, by decide⟩

/-- Claim C5, amended: the response-code extractor runs only in the
Image modality.  On a successful conversion with an active image the
stored code is the extractor output over the first candidate text; in
the StructuredText modality the raw completion text is stored with no
extraction. -/
theorem c5_extractor_only_in_image_branch (env : ConvEnv) (body : ApiBody)
    (content : String) (s s2 : AppState) (f : JsFile)
    (henc : env.encodeError = none)
    (hresp : env.fetchOutcome = .response true (.ok body))
    (hbody : firstChoiceContent body = .ok (some content))
    (hs : s.imageFile = some f)
    (hs2i : s2.imageFile = none) (hs2j : s2.figmaJson ≠ "") :
    (convertFigmaToJSX env s).1.generatedCode = extractCodeStr content ∧
    (convertFigmaToJSX env s2).1.generatedCode = content := by
  simp [convertFigmaToJSX, imageBranchResult, jsonBranchResult, henc, hresp,
    hbody, hs, hs2i, hs2j]

/-- Claim C5, witness: the amended statement at a fenced completion in
both modalities. -/
theorem c5_extractor_only_in_image_branch_witness :
    (convertFigmaToJSX (okEnv "```jsx ok ```") { initialState with imageFile := some pngFile }).1.generatedCode
      = extractCodeStr "```jsx ok ```" ∧
    (convertFigmaToJSX (okEnv "```jsx ok ```") { initialState with figmaJson := "d" }).1.generatedCode
      = "```jsx ok ```" :=
  c5_extractor_only_in_image_branch (okEnv "```jsx ok ```") (okBody "```jsx ok ```")
    "```jsx ok ```" _ _ pngFile rfl rfl rfl rfl rfl (by decide)

/-- A 2xx body with no choices field and no error field. -/
def noChoicesBody : ApiBody := { choices := none, errMsg := none }

/-- Claim C6, counterexample: on a 2xx body with no choices field the
stored message carries an Error: prefix, so it is not exactly the
claimed fixed string. -/
theorem c6_message_has_error_prefix :
    (convertFigmaToJSX { encodeError := none, fetchOutcome := .response true (.ok noChoicesBody) }
      { initialState with imageFile := some pngFile }).1.generatedCode
      = "Error: Could not generate code. Please check your input." ∧
    (convertFigmaToJSX { encodeError := none, fetchOutcome := .response true (.ok noChoicesBody) }
      { initialState with imageFile := some pngFile }).1.generatedCode
      ≠ "Could not generate code. Please check your input." := by
  refine ⟨rfl, by decide⟩

/-- Claim C6, amended: for every 2xx response whose body lacks the
choices field, or whose first candidate is present but carries no (or
an empty) content string, the stored message is exactly the string
Error: Could not generate code. Please check your input. — the fixed
fallback prefixed by Error: — in both modalities.  (A body whose
choices array is empty instead throws in the truthiness test and
surfaces the runtime TypeError message.) -/
theorem c6_missing_choices_fixed_message (env : ConvEnv) (body : ApiBody)
    (s s2 : AppState) (f : JsFile)
    (henc : env.encodeError = none)
    (hresp : env.fetchOutcome = .response true (.ok body))
    (hbody : firstChoiceContent body = .ok none)
    (hs : s.imageFile = some f)
    (hs2i : s2.imageFile = none) (hs2j : s2.figmaJson ≠ "") :
    (convertFigmaToJSX env s).1.generatedCode
      = "Error: Could not generate code. Please check your input." ∧
    (convertFigmaToJSX env s2).1.generatedCode
      = "Error: Could not generate code. Please check your input." := by
  simp [convertFigmaToJSX, imageBranchResult, jsonBranchResult, henc, hresp,
    hbody, hs, hs2i, hs2j]

/-- Claim C6, witness: the amended statement at the no-choices body in
both modalities. -/
theorem c6_missing_choices_fixed_message_witness :
    (convertFigmaToJSX { encodeError := none, fetchOutcome := .response true (.ok noChoicesBody) }
      { initialState with imageFile := some pngFile }).1.generatedCode
      = "Error: Could not generate code. Please check your input." ∧
    (convertFigmaToJSX { encodeError := none, fetchOutcome := .response true (.ok noChoicesBody) }
      { initialState with figmaJson := "d" }).1.generatedCode
      = "Error: Could not generate code. Please check your input." :=
  c6_missing_choices_fixed_message _ noChoicesBody _ _ pngFile rfl rfl rfl rfl rfl
    (by decide)

/-- A non-2xx body carrying a service error message and no choices. -/
def rateLimitBody : ApiBody := { choices := none, errMsg := some "Rate limit exceeded" }

/-- Claim C7, counterexample: in the StructuredText modality a non-2xx
response carrying a service error message is not surfaced as that
message: the branch never checks response.ok, falls through to the
choices test, and stores the generic fixed fallback, which does not
contain the service-supplied text. -/
theorem c7_json_branch_ignores_status :
    (convertFigmaToJSX { encodeError := none, fetchOutcome := .response false (.ok rateLimitBody) }
      { initialState with figmaJson := "d" }).1.generatedCode
      = "Error: Could not generate code. Please check your input." ∧
    containsSub ((convertFigmaToJSX { encodeError := none, fetchOutcome := .response false (.ok rateLimitBody) }
      { initialState with figmaJson := "d" }).1.generatedCode).toList
      "Rate limit exceeded".toList = false := by
  refine ⟨rfl, by decide⟩

/-- Claim C7, amended: only the Image modality handles non-2xx
responses as service errors: there the stored message is Error:
followed by the service-supplied error message, and when the body has
no error message it falls back to the fixed generic Error: API request
failed (not a status-code-derived message).  In the StructuredText
modality the status is ignored and such a response falls through to
the generic missing-choices fallback. -/
theorem c7_non2xx_service_error_image_only (body body2 : ApiBody) (m : String)
    (s s2 : AppState) (f : JsFile)
    (hm : body.errMsg = some m) (hm0 : m ≠ "")
    (hb2 : body2.errMsg = none)
    (hnoc : body.choices = none)
    (hs : s.imageFile = some f)
    (hs2i : s2.imageFile = none) (hs2j : s2.figmaJson ≠ "") :
    (convertFigmaToJSX { encodeError := none, fetchOutcome := .response false (.ok body) } s).1.generatedCode
      = "Error: " ++ m ∧
    (convertFigmaToJSX { encodeError := none, fetchOutcome := .response false (.ok body2) } s).1.generatedCode
      = "Error: API request failed" ∧
    (convertFigmaToJSX { encodeError := none, fetchOutcome := .response false (.ok body) } s2).1.generatedCode
      = "Error: Could not generate code. Please check your input." := by
  simp [convertFigmaToJSX, imageBranchResult, jsonBranchResult, serviceErrMsg,
    firstChoiceContent, hm, hm0, hb2, hnoc, hs, hs2i, hs2j]

/-- Claim C7, witness: the amended statement at concrete bodies and
states. -/
theorem c7_non2xx_service_error_image_only_witness :
    (convertFigmaToJSX { encodeError := none, fetchOutcome := .response false (.ok rateLimitBody) }
      { initialState with imageFile := some pngFile }).1.generatedCode
      = "Error: " ++ "Rate limit exceeded" ∧
    (convertFigmaToJSX { encodeError := none, fetchOutcome := .response false (.ok noChoicesBody) }
      { initialState with imageFile := some pngFile }).1.generatedCode
      = "Error: API request failed" ∧
    (convertFigmaToJSX { encodeError := none, fetchOutcome := .response false (.ok rateLimitBody) }
      { initialState with figmaJson := "d" }).1.generatedCode
      = "Error: Could not generate code. Please check your input." :=
  c7_non2xx_service_error_image_only rateLimitBody noChoicesBody "Rate limit exceeded"
    _ _ pngFile rfl (by decide) rfl rfl rfl rfl (by decide)

/-- Claim C8: a conversion started with an active image and a
successful encoding issues exactly one request — the image request over
the data URL of the file — and that request selects the vision model
gpt-4o, has temperature exactly 0, and carries exactly one image part,
whose url is the data-URL encoding of the image bytes. -/
theorem c8_image_request_shape (env : ConvEnv) (s : AppState) (f : JsFile)
    (hs : s.imageFile = some f) (henc : env.encodeError = none) :
    (convertFigmaToJSX env s).2 = [buildImageRequest (fileToBase64 f)] ∧
    (buildImageRequest (fileToBase64 f)).model = "gpt-4o" ∧
    (buildImageRequest (fileToBase64 f)).temperature = 0 ∧
    imagePartUrls (buildImageRequest (fileToBase64 f)) = [fileToBase64 f] := by
  refine ⟨?_, rfl, rfl, rfl⟩
  simp [convertFigmaToJSX, hs, henc]

/-- Claim C8, witness: the request shape at a concrete png file. -/
theorem c8_image_request_shape_witness :
    (convertFigmaToJSX (okEnv "x") { initialState with imageFile := some pngFile }).2
      = [buildImageRequest (fileToBase64 pngFile)] ∧
    (buildImageRequest (fileToBase64 pngFile)).model = "gpt-4o" ∧
    (buildImageRequest (fileToBase64 pngFile)).temperature = 0 ∧
    imagePartUrls (buildImageRequest (fileToBase64 pngFile)) = [fileToBase64 pngFile] :=
  c8_image_request_shape (okEnv "x") _ pngFile rfl rfl

/-- Claim C9, counterexample: replacing one selected file by another
and then clearing the preview never revokes any object URL: the first
preview URL 0 is replaced by URL 1 and the revoked list stays empty
throughout. -/
theorem c9_preview_never_revoked :
    (handleFileChange [pngFile] initialState).imagePreview = some 0 ∧
    (handleFileChange [jpgFile] (handleFileChange [pngFile] initialState)).imagePreview = some 1 ∧
    (handleFileChange [jpgFile] (handleFileChange [pngFile] initialState)).revokedUrls = [] ∧
    (clearImage (handleFileChange [jpgFile] (handleFileChange [pngFile] initialState))).revokedUrls = [] := by
  refine ⟨rfl, rfl, rfl, rfl⟩

/-- The paste loop never touches the revoked-URL list. -/
theorem pasteLoop_revoked (items : List ClipItem) (s : AppState) :
    (pasteLoop items s).1.revokedUrls = s.revokedUrls := by
  induction items with
  | nil => rfl
  | cons item rest ih =>
    by_cases h : isImageItem item = true
    · cases hf : item.asFile <;> simp [pasteLoop, h, hf]
    · simp [pasteLoop, h, ih]

/-- Claim C9, amended: no handler ever revokes a preview reference.
Replacing the preview through handleFileChange or the paste handler,
and clearing it through the clear button, leave the set of revoked
object URLs untouched: the old reference is only dropped, not
released. -/
theorem c9_handlers_never_revoke (s : AppState) (files : List JsFile)
    (items : Option (List ClipItem)) :
    (handleFileChange files s).revokedUrls = s.revokedUrls ∧
    (clearImage s).revokedUrls = s.revokedUrls ∧
    (handlePaste items s).1.revokedUrls = s.revokedUrls := by
  refine ⟨?_, rfl, ?_⟩
  · cases files <;> rfl
  · cases items with
    | none => rfl
    | some list => exact pasteLoop_revoked list s

/-- The paste loop skips clipboard entries whose type does not contain
image. -/
theorem pasteLoop_skips_nonimage (pre tail : List ClipItem) (s : AppState)
    (hpre : ∀ i ∈ pre, isImageItem i = false) :
    pasteLoop (pre ++ tail) s = pasteLoop tail s := by
  revert hpre
  induction pre with
  | nil => intro _; rfl
  | cons i is ih =>
    intro hpre
    have hi := hpre i (List.mem_cons_self i is)
    have h2 := ih fun x hx => hpre x (List.mem_cons_of_mem i hx)
    simp [pasteLoop, hi, h2]

/-- Claim C10: when the first image-typed clipboard entry yields no
file (getAsFile returns null), handlePaste has already suppressed the
default paste-as-text behaviour (second component true), yet the whole
state — image handle, preview reference, structured text, and all the
rest — is returned exactly unchanged. -/
theorem c10_paste_null_file_frame (s : AppState) (pre : List ClipItem)
    (item : ClipItem) (rest : List ClipItem)
    (hpre : ∀ i ∈ pre, isImageItem i = false)
    (hitem : isImageItem item = true)
    (hfile : item.asFile = none) :
    handlePaste (some (pre ++ item :: rest)) s = (s, true) := by
  show pasteLoop (pre ++ item :: rest) s = (s, true)
  rw [pasteLoop_skips_nonimage pre (item :: rest) s hpre]
  simp [pasteLoop, hitem, hfile]

/-- Claim C10, witness: a text entry followed by an image entry with a
null file leaves the initial state unchanged while suppressing the
default paste. -/
theorem c10_paste_null_file_frame_witness :
    handlePaste (some [{ itemType := "text/plain", asFile := none },
      { itemType := "image/png", asFile := none }]) initialState
      = (initialState, true) :=
  c10_paste_null_file_frame initialState [{ itemType := "text/plain", asFile := none }]
    { itemType := "image/png", asFile := none } [] (by decide) (by decide) rfl
